import Mathlib

/-!
Verification of the narrative-io/data-collaboration-mcp server.

This file shallowly embeds the parts of the TypeScript source that the
claims concern:

* the WHATWG `new URL(...)` parsing used by `ResourceHandlers.setupResourceRead`
  (src/build/handlers/resource-handlers.js), restricted to the character
  set exercised by the claims (unreserved identifier characters; no
  percent-encoding is modelled because no theorem mentions an input that
  would be percent-encoded);
* ECMAScript `parseInt(s, 10)` as used for access-rule identifiers;
* the resource-read dispatcher itself, as a pure decision function whose
  result records which upstream call (if any) the handler issues, or which
  error it throws;
* the `ResourceManager` registry, which is referenced throughout the source
  (`resource-manager.ts`) but whose implementation file is not present in
  the repository snapshot; its operations are modelled from the spec;
* the tool-invocation layer: `ToolRegistry.validateToolInput` with its nine
  zod validators, and `ToolHandlers.setupToolCalls` with its handlers,
  modelled as a pure function from tool name, arguments and an upstream
  oracle to a trace of upstream calls plus an outcome;
* `NarrativeSDKClient.getJobResults` (src/src/lib/sdk-client.ts).

Side effects are made explicit: upstream HTTP/SDK calls are requests to an
oracle, and the list of calls actually issued is part of every result, so
"no upstream call is made" is a statement about that list.  Success
responses of tool handlers are kept as structured summaries (the payload
that the formatter would render); their human-readable rendering is not
modelled because no claim constrains it.
-/

namespace DataCollabMcp

/-! ## Character helpers and ECMAScript `parseInt(s, 10)` -/

/-- ASCII whitespace accepted by ECMAScript `parseInt` before the number
(space, tab, line feed, carriage return, vertical tab, form feed). -/
def jsWs (c : Char) : Bool :=
  c = ' ' || c = '\t' || c = '\n' || c = '\r' || c = '\x0b' || c = '\x0c'

def isDigit (c : Char) : Bool :=
  48 ≤ c.toNat && c.toNat ≤ 57

/-- Numeric value of a list of decimal digits, most significant first. -/
def decVal (l : List Char) : Nat :=
  l.foldl (fun acc c => 10 * acc + (c.toNat - 48)) 0

/-- The longest decimal-digit prefix, as a number; `none` when empty. -/
def digitsHeadVal (l : List Char) : Option Nat :=
  let ds := l.takeWhile isDigit
  if ds.isEmpty then none else some (decVal ds)

/-- Core of ECMAScript `parseInt(s, 10)` on a character list: skip leading
whitespace, read an optional sign, then the longest prefix of decimal
digits; `none` (JavaScript `NaN`) when that prefix is empty.  Trailing
garbage is ignored, exactly as in JavaScript. -/
def parseIntCore (l : List Char) : Option Int :=
  match l.dropWhile jsWs with
  | [] => none
  | c :: t =>
      if c = '-' then (digitsHeadVal t).map (fun n => -(n : Int))
      else if c = '+' then (digitsHeadVal t).map (fun n => (n : Int))
      else (digitsHeadVal (c :: t)).map (fun n => (n : Int))

/-- ECMAScript `parseInt(s, 10)` (`none` = `NaN`). -/
def jsParseInt10 (s : String) : Option Int :=
  parseIntCore s.toList

/-! ## WHATWG URL model

`new URL(input)` as invoked by the resource-read handler, for the scheme
and character ranges the server deals with.  Key behaviours that matter for
the claims, both confirmed by the WHATWG URL standard (and RFC 3986):

* `scheme://x` places `x` in the authority (host), leaving the path empty,
  also for non-special schemes such as `access-rule:`;
* `scheme:///x` has an empty host and path `/x`;
* `scheme:x` (no slashes) has an opaque path `x`;
* an input without a `scheme:` prefix is rejected (`new URL` throws).

The model is exact on inputs whose identifier characters are alphanumeric
or `-`, `_`, `.`; it is deliberately stricter than the real parser on
exotic authorities (those inputs occur in no theorem below). -/

structure JsUrl where
  protocol : String
  host : String
  pathname : String
  deriving DecidableEq, Repr

/-- First character allowed in a URL scheme. -/
def schemeStart (c : Char) : Bool :=
  (97 ≤ c.toNat && c.toNat ≤ 122) || (65 ≤ c.toNat && c.toNat ≤ 90)

/-- Subsequent characters allowed in a URL scheme. -/
def schemeChar (c : Char) : Bool :=
  schemeStart c || isDigit c || c = '+' || c = '-' || c = '.'

/-- Characters this model accepts inside an authority (host and port). -/
def hostChar (c : Char) : Bool :=
  schemeStart c || isDigit c || c = '-' || c = '_' || c = '.' || c = ':'

/-- The WHATWG special schemes, whose parsing differs from other schemes. -/
def specialScheme (s : String) : Bool :=
  s = "http:" || s = "https:" || s = "ws:" || s = "wss:" || s = "ftp:" || s = "file:"

/-- Leading/trailing C0 controls (code points below 32) and spaces are
stripped from the input. -/
def c0OrSpace (c : Char) : Bool :=
  c.toNat ≤ 32

def urlTrim (l : List Char) : List Char :=
  ((l.dropWhile c0OrSpace).reverse.dropWhile c0OrSpace).reverse

/-- An authority is terminated by `/`, `?` or `#`. -/
def notAuthorityEnd (c : Char) : Bool :=
  c ≠ '/' && c ≠ '?' && c ≠ '#'

/-- A path is terminated by `?` (query) or `#` (fragment). -/
def notPathEnd (c : Char) : Bool :=
  c ≠ '?' && c ≠ '#'

/-- Parse after the scheme: either `//authority[path]` or an opaque path.
Query and fragment are cut off as in the standard. -/
def parseAfterScheme (protocol : String) (rest : List Char) : Option JsUrl :=
  match rest with
  | '/' :: '/' :: r =>
      let auth := r.takeWhile notAuthorityEnd
      let tail := r.dropWhile notAuthorityEnd
      if auth.all hostChar then
        if specialScheme protocol && auth.isEmpty then
          none
        else
          some { protocol := protocol
                 host := String.mk auth
                 pathname := String.mk (tail.takeWhile notPathEnd) }
      else none
  | r =>
      if specialScheme protocol then none
      else
        some { protocol := protocol
               host := ""
               pathname := String.mk (r.takeWhile notPathEnd) }

/-- Split `scheme:` (lower-cased, with the colon, as `url.protocol`
serializes it) from the remainder. -/
def splitScheme (l : List Char) : Option (String × List Char) :=
  match l with
  | [] => none
  | c :: _ =>
      if schemeStart c then
        match l.dropWhile schemeChar with
        | ':' :: rest =>
            some (String.mk ((l.takeWhile schemeChar).map Char.toLower) ++ ":", rest)
        | _ => none
      else none

/-- Model of `new URL(input)`; `none` means the constructor throws `Invalid URL`. -/
def parseUrl (input : String) : Option JsUrl :=
  match splitScheme (urlTrim input.toList) with
  | none => none
  | some (protocol, rest) => parseAfterScheme protocol rest

/-! ## The resource registry (`ResourceManager`) -/

/-- Internal stored-resource record, from `StoredResource` in
src/src/types/index.ts. -/
structure StoredResource where
  id : String
  name : String
  content : String
  description : Option String
  mimeType : Option String
  deriving DecidableEq, Repr

/-- The registry state: stored entries keyed by address, in insertion
order. -/
abbrev Registry := List (String × StoredResource)

/-- Modelled from the spec: `resource-manager.ts` is referenced by the
handlers but absent from the repository snapshot.  Per spec §4.1,
`get(address)` "returns the entry or a not-found signal". -/
def regGet (reg : Registry) (key : String) : Option StoredResource :=
  match reg.find? (fun p => p.1 = key) with
  | some p => some p.2
  | none => none

/-- Modelled from the spec: `resource-manager.ts` is absent from the
snapshot.  Per spec §4.1, `put` "inserts or overwrites", has "no error
conditions (always succeeds)", and a later insertion with the same address
overwrites the prior entry (last-write-wins). -/
def regSet (reg : Registry) (key : String) (e : StoredResource) : Registry :=
  if reg.any (fun p => p.1 = key) then
    reg.map (fun p => if p.1 = key then (key, e) else p)
  else
    reg ++ [(key, e)]

/-- Contents record returned for a served resource read
(`uri`/`mimeType`/`text` as in the handler's response). -/
structure ServedContents where
  uri : String
  mimeType : String
  text : String
  deriving DecidableEq, Repr

/-- Modelled from the spec: `ResourceManager.getResourceContents` (in the
absent `resource-manager.ts`) delegates to the registry and serves the
stored payload byte-for-byte; the content kind defaults to plain text
(spec §3, `contentKind` "defaults to plain text"). -/
def getResourceContents (reg : Registry) (id uri : String) : Option ServedContents :=
  match regGet reg id with
  | some e => some { uri := uri, mimeType := e.mimeType.getD "text/plain", text := e.content }
  | none => none

/-! ## The resource-read dispatcher

`ResourceHandlers.setupResourceRead` (src/build/handlers/resource-handlers.js,
lines 45-103).  The decision records the complete behaviour of the handler
up to its single side effect: which upstream fetch is issued (the
`fetchDataset`/`fetchAccessRule` constructors), which stored contents are
served, or which error is thrown.  An error decision therefore means that
no upstream call is made and the registry is not consulted. -/

inductive ReadDecision where
  /-- Case where `new URL(request.params.uri)` threw `Invalid URL`. -/
  | errInvalidUrl : ReadDecision
  /-- Case where `apiClient.fetchDatasetById(id)` is called with the extracted id. -/
  | fetchDataset (id : String) : ReadDecision
  /-- Error `McpError(InvalidRequest, "Invalid access rule ID: <raw>")`. -/
  | errInvalidAccessRuleId (raw : String) : ReadDecision
  /-- Case where `apiClient.fetchAccessRuleById(id)` is called with the parsed id. -/
  | fetchAccessRule (id : Int) : ReadDecision
  /-- Registry-backed contents are returned unchanged. -/
  | served (contents : ServedContents) : ReadDecision
  /-- Error `McpError(InvalidRequest, "Resource <id> not found")`. -/
  | errNotFound (id : String) : ReadDecision
  /-- Error `McpError(InvalidRequest, "Unsupported URI scheme: <protocol>")`. -/
  | errUnsupportedScheme (protocol : String) : ReadDecision
  deriving DecidableEq, Repr

/-- Model of `url.pathname.replace(/^\//, "")`: strip one leading slash. -/
def stripLeadSlash (s : String) : String :=
  match s.toList with
  | '/' :: t => String.mk t
  | _ => s

/-- The access-rule identifier step of the handler:
`parseInt(id, 10)` then `isNaN` check — `NaN` throws
`McpError(InvalidRequest, "Invalid access rule ID: <raw>")`, otherwise the
parsed number is fetched. -/
def accessRuleIdStep (raw : String) : ReadDecision :=
  match jsParseInt10 raw with
  | none => .errInvalidAccessRuleId raw
  | some n => .fetchAccessRule n

/-- The resource-read handler, from `setupResourceRead`: parse the URI,
then dispatch on `url.protocol` in source order (`dataset:`,
`access-rule:`, `resource:`, otherwise unsupported). -/
def readResource (uri : String) (reg : Registry) : ReadDecision :=
  match parseUrl uri with
  | none => .errInvalidUrl
  | some u =>
      if u.protocol = "dataset:" then
        .fetchDataset (stripLeadSlash u.pathname)
      else if u.protocol = "access-rule:" then
        accessRuleIdStep (stripLeadSlash u.pathname)
      else if u.protocol = "resource:" then
        let id := stripLeadSlash u.pathname
        match getResourceContents reg id uri with
        | some c => .served c
        | none => .errNotFound id
      else
        .errUnsupportedScheme u.protocol

/-! ## JSON-ish values for tool arguments and upstream payloads -/

/-- Dynamic JavaScript values as seen by the validation and handler code.
A number carries whether it is an integer (zod's `.int()` check); non-real
JavaScript numerics (NaN, infinities) are not modelled, as no claim
involves them. -/
inductive Jv where
  | null : Jv
  | bool (b : Bool) : Jv
  | num (n : Int) (isInt : Bool) : Jv
  | str (s : String) : Jv
  | arr (xs : List Jv) : Jv
  | obj (fs : List (String × Jv)) : Jv

/-- Property access `v[k]`; `none` is JavaScript `undefined`. -/
def jGet (v : Jv) (k : String) : Option Jv :=
  match v with
  | .obj fs => (fs.find? (fun p => p.1 = k)).map (fun p => p.2)
  | _ => none

/-- JavaScript falsiness, for `request.params.arguments || {}`. -/
def jsFalsy (v : Jv) : Bool :=
  match v with
  | .null => true
  | .bool b => !b
  | .num n _ => n = 0
  | .str s => s = ""
  | _ => false

/-- String interpolation of a possibly-undefined field value, as in
`` `... ${status.status}` ``.  Array rendering is approximated (no claim
interpolates an array or a fractional number). -/
def jvFieldToString (o : Option Jv) : String :=
  match o with
  | none => "undefined"
  | some .null => "null"
  | some (.bool b) => if b then "true" else "false"
  | some (.str s) => s
  | some (.num n _) => toString n
  | some (.arr _) => ""
  | some (.obj _) => "[object Object]"

/-! ## Tool input validation (`ToolRegistry`, src/src/lib/config.ts)

The nine zod validators of the full `ToolRegistry` and the routing
`validateToolInput`.  Issue messages are abbreviated one-line versions of
zod's (no theorem states the text of a zod issue); everything else —
which inputs pass, which fail, defaults, trimming, unknown-key stripping,
and the plain `Error` thrown for an unknown tool name — follows the source. -/

/-- Validation failure: a `z.ZodError` (caught and turned into
`McpError(InvalidParams, ...)` by `setupToolCalls`) or the plain
`Error("Unknown tool: ...")` thrown by `validateToolInput`'s default
branch (rethrown unchanged). -/
inductive VErr where
  | zod (msg : String) : VErr
  | plain (msg : String) : VErr

/-- Schema `resultType: z.enum(["sample", "statistics"])`. -/
inductive RT where
  | sample : RT
  | statistics : RT
  deriving DecidableEq, Repr

/-- Validated arguments of `list_access_rules` (also reused, plus `query`,
by `search_access_rules`).  `tag`, `company_id` and `dataset_id` keep the
accepted value (zod unions return the input unchanged). -/
structure LarArgs where
  owned_only : Option Bool
  shared_only : Option Bool
  tag : Option Jv
  company_id : Option Jv
  dataset_id : Option Jv
  page : Int
  per_page : Int

/-- The output of `validateToolInput`: one constructor per declared tool,
carrying the zod-parsed arguments the matching handler receives. -/
inductive Validated where
  | echo (message : String) : Validated
  | searchAttributes (query : String) (page perPage : Int) : Validated
  | listDatasets : Validated
  | listAccessRules (args : LarArgs) : Validated
  | searchAccessRules (query : String) (args : LarArgs) : Validated
  | datasetStatistics (dataset_id : String) : Validated
  | datasetSample (dataset_id : String) (size : Option Int) : Validated
  | nqlExecute (query : String) (generateSample generateStats : Option Bool) : Validated
  | nqlGetResults (jobId : String) (resultType : RT) : Validated

/-- Schema `z.string().min(n)` on a required field. -/
def zStrMin (v : Option Jv) (minLen : Nat) : Except String String :=
  match v with
  | none => .error "Required"
  | some (.str s) => if minLen ≤ s.length then .ok s else .error "String too short"
  | some _ => .error "Expected string"

/-- JavaScript `String.prototype.trim` (ASCII whitespace; the Unicode
whitespace JavaScript also strips occurs in no claim). -/
def jsTrim (s : String) : String :=
  String.mk (((s.toList.dropWhile jsWs).reverse.dropWhile jsWs).reverse)

/-- Schema `z.string().trim().min(1)`: the parsed value is the trimmed string. -/
def zStrTrimMin1 (v : Option Jv) : Except String String :=
  match v with
  | none => .error "Required"
  | some (.str s) =>
      let t := jsTrim s
      if 1 ≤ t.length then .ok t else .error "String too short"
  | some _ => .error "Expected string"

/-- Schema `z.number().int().positive()[.max m].default d`. -/
def zPosIntDefault (v : Option Jv) (dflt : Int) (maxBound : Option Int) : Except String Int :=
  match v with
  | none => .ok dflt
  | some (.num n true) =>
      if 0 < n then
        match maxBound with
        | some m => if n ≤ m then .ok n else .error "Number too big"
        | none => .ok n
      else .error "Number must be greater than 0"
  | some (.num _ false) => .error "Expected integer"
  | some _ => .error "Expected number"

/-- Schema `z.number().int().positive().max(m).default(_).optional()`: a missing
field short-circuits through `ZodOptional` to `undefined`. -/
def zOptPosIntMax (v : Option Jv) (maxBound : Int) : Except String (Option Int) :=
  match v with
  | none => .ok none
  | some (.num n true) =>
      if 0 < n then
        if n ≤ maxBound then .ok (some n) else .error "Number too big"
      else .error "Number must be greater than 0"
  | some (.num _ false) => .error "Expected integer"
  | some _ => .error "Expected number"

/-- Schema `z.boolean().optional()` (and `z.boolean().default(_).optional()`,
where `ZodOptional` likewise passes `undefined` through). -/
def zOptBool (v : Option Jv) : Except String (Option Bool) :=
  match v with
  | none => .ok none
  | some (.bool b) => .ok (some b)
  | some _ => .error "Expected boolean"

/-- Schema `z.union([z.string(), z.array(z.string())]).optional()`. -/
def zOptStrOrArr (v : Option Jv) : Except String (Option Jv) :=
  match v with
  | none => .ok none
  | some (.str s) => .ok (some (.str s))
  | some (.arr xs) =>
      if xs.all (fun x => match x with | .str _ => true | _ => false) then
        .ok (some (.arr xs))
      else .error "Invalid union member"
  | some _ => .error "Invalid union member"

/-- Schema `z.union([z.number(), z.array(z.number())]).optional()`. -/
def zOptNumOrArr (v : Option Jv) : Except String (Option Jv) :=
  match v with
  | none => .ok none
  | some (.num n i) => .ok (some (.num n i))
  | some (.arr xs) =>
      if xs.all (fun x => match x with | .num _ _ => true | _ => false) then
        .ok (some (.arr xs))
      else .error "Invalid union member"
  | some _ => .error "Invalid union member"

/-- Schema `z.enum(["sample", "statistics"])`. -/
def zResultType (v : Option Jv) : Except String RT :=
  match v with
  | some (.str "sample") => .ok .sample
  | some (.str "statistics") => .ok .statistics
  | some (.str _) => .error "Invalid enum value"
  | none => .error "Required"
  | some _ => .error "Expected string"

/-- zod object schemas reject non-object input before any field check. -/
def zObj (input : Jv) (body : Except String Validated) : Except String Validated :=
  match input with
  | .obj _ => body
  | _ => .error "Expected object"

def validateEchoInput (input : Jv) : Except String Validated :=
  zObj input do
    let m ← zStrMin (jGet input "message") 1
    return .echo m

def validateSearchAttributesInput (input : Jv) : Except String Validated :=
  zObj input do
    let q ← zStrMin (jGet input "query") 1
    let p ← zPosIntDefault (jGet input "page") 1 none
    let pp ← zPosIntDefault (jGet input "perPage") 10 (some 100)
    return .searchAttributes q p pp

def validateListDatasetsInput (input : Jv) : Except String Validated :=
  zObj input (return .listDatasets)

/-- The shared field block of the two access-rule schemas. -/
def parseLarFields (input : Jv) : Except String LarArgs := do
  let ow ← zOptBool (jGet input "owned_only")
  let sh ← zOptBool (jGet input "shared_only")
  let tg ← zOptStrOrArr (jGet input "tag")
  let ci ← zOptNumOrArr (jGet input "company_id")
  let di ← zOptNumOrArr (jGet input "dataset_id")
  let p ← zPosIntDefault (jGet input "page") 1 none
  let pp ← zPosIntDefault (jGet input "per_page") 10 (some 100)
  return ⟨ow, sh, tg, ci, di, p, pp⟩

def validateListAccessRulesInput (input : Jv) : Except String Validated :=
  zObj input do
    let a ← parseLarFields input
    return .listAccessRules a

def validateSearchAccessRulesInput (input : Jv) : Except String Validated :=
  zObj input do
    let q ← zStrMin (jGet input "query") 1
    let a ← parseLarFields input
    return .searchAccessRules q a

def validateDatasetStatisticsInput (input : Jv) : Except String Validated :=
  zObj input do
    let d ← zStrMin (jGet input "dataset_id") 1
    return .datasetStatistics d

def validateDatasetSampleInput (input : Jv) : Except String Validated :=
  zObj input do
    let d ← zStrMin (jGet input "dataset_id") 1
    let s ← zOptPosIntMax (jGet input "size") 100
    return .datasetSample d s

def validateNqlExecuteInput (input : Jv) : Except String Validated :=
  zObj input do
    let q ← zStrTrimMin1 (jGet input "query")
    let gs ← zOptBool (jGet input "generateSample")
    let gst ← zOptBool (jGet input "generateStats")
    return .nqlExecute q gs gst

def validateNqlGetResultsInput (input : Jv) : Except String Validated :=
  zObj input do
    let j ← zStrTrimMin1 (jGet input "jobId")
    let rt ← zResultType (jGet input "resultType")
    return .nqlGetResults j rt

/-- Model of `ToolRegistry.validateToolInput` (src/src/lib/config.ts, lines
535-558): route to the matching zod validator; any other name throws a
plain `Error`, not a `ZodError` and not an `McpError`. -/
def validateToolInput (name : String) (input : Jv) : Except VErr Validated :=
  match name with
  | "echo" => (validateEchoInput input).mapError .zod
  | "search_attributes" => (validateSearchAttributesInput input).mapError .zod
  | "list_datasets" => (validateListDatasetsInput input).mapError .zod
  | "list_access_rules" => (validateListAccessRulesInput input).mapError .zod
  | "search_access_rules" => (validateSearchAccessRulesInput input).mapError .zod
  | "dataset_statistics" => (validateDatasetStatisticsInput input).mapError .zod
  | "dataset_sample" => (validateDatasetSampleInput input).mapError .zod
  | "nql_execute" => (validateNqlExecuteInput input).mapError .zod
  | "nql_get_results" => (validateNqlGetResultsInput input).mapError .zod
  | _ => .error (.plain ("Unknown tool: " ++ name))

/-! ## Tool invocation (`ToolHandlers.setupToolCalls` and handlers)

Upstream HTTP/SDK operations are requests to an oracle
`Ora : UpCall → Except String Jv`; an oracle error string stands for the
JavaScript string interpolation of the value the transport rejected with.
Each tool result carries the list of upstream calls actually issued, in
order, so "no upstream call was made" is `calls = []`.

The handlers' registry writes (`resourceManager.setResource` /
`add...AsResources` on success paths) and the human-readable rendering of
success responses are not modelled here: no claim constrains them, and the
registry operations themselves are modelled and verified separately above.
A success outcome keeps the upstream payload the formatter would render. -/

/-- The outbound upstream operations of the handlers: the axios GETs of
`NarrativeApiClient` and the SDK calls of `NarrativeSDKClient`. -/
inductive UpCall where
  | attributes (query : String) (page perPage : Int) : UpCall
  | datasets : UpCall
  | accessRulesList (args : LarArgs) : UpCall
  | accessRulesSearch (query : String) (args : LarArgs) : UpCall
  | getStatistics (datasetId : Int) : UpCall
  | getDatasetSample (datasetId : Int) (size : Int) : UpCall
  | nqlExecute (query : String) (generateSample generateStatistics : Bool) : UpCall
  | jobsGetStatus (jobId : String) : UpCall
  | jobsGetResults (jobId : String) (resultType : RT) : UpCall

/-- The upstream oracle: transport/SDK behaviour on each call. -/
def Ora := UpCall → Except String Jv

/-- A JavaScript exception value: either an arbitrary rejected value
(kept as its string rendering) or an `Error` object with a message. -/
inductive JsE where
  | raw (rendered : String) : JsE
  | err (msg : String) : JsE

/-- Rendering `` `${e}` `` of an exception value: `Error` objects render as
`"Error: <message>"`. -/
def jsShow : JsE → String
  | .raw s => s
  | .err m => "Error: " ++ m

/-- Rendering of an `Error` thrown by the api-client layer inside a
handler's template string. -/
def errToString (m : String) : String := "Error: " ++ m

/-- The relevant `ErrorCode` values of the MCP SDK. -/
inductive ECode where
  | invalidParams : ECode
  | methodNotFound : ECode
  | invalidRequest : ECode
  deriving DecidableEq, Repr

/-- Structured content of a success envelope: the text the handler echoes,
or the upstream payload a handler formats into its summary. -/
inductive Summary where
  | echoText (s : String) : Summary
  | formatted (tool : String) (payload : Jv) : Summary

/-- The outcome of one tool invocation, as `setupToolCalls` surfaces it. -/
inductive ToolOut where
  /-- A thrown `McpError` (a typed protocol error). -/
  | protoErr (code : ECode) (msg : String) : ToolOut
  /-- A thrown plain `Error` (surfaced by the protocol layer as a generic
  internal error, not a typed `McpError`). -/
  | plainErr (msg : String) : ToolOut
  /-- A success envelope (`content` without `isError`). -/
  | ok (summary : Summary) : ToolOut
  /-- A success envelope with `isError: true` and the given text. -/
  | okError (text : String) : ToolOut

/-- One tool invocation's observable behaviour: the upstream calls issued,
in order, and the outcome. -/
structure ToolResult where
  calls : List UpCall
  out : ToolOut

/-- Model of `NarrativeApiClient.fetchAttributes`: wraps a transport failure in
`Error("Failed to fetch attributes: " + e)`. -/
def apiFetchAttributes (ora : Ora) (q : String) (p pp : Int) : Except String Jv :=
  match ora (.attributes q p pp) with
  | .ok r => .ok r
  | .error s => .error ("Failed to fetch attributes: " ++ s)

/-- Model of `NarrativeApiClient.fetchDatasets`. -/
def apiFetchDatasets (ora : Ora) : Except String Jv :=
  match ora .datasets with
  | .ok r => .ok r
  | .error s => .error ("Failed to fetch datasets: " ++ s)

/-- Model of `NarrativeApiClient.fetchAccessRules`. -/
def apiFetchAccessRules (ora : Ora) (a : LarArgs) : Except String Jv :=
  match ora (.accessRulesList a) with
  | .ok r => .ok r
  | .error s => .error ("Failed to fetch access rules: " ++ s)

/-- Model of `NarrativeApiClient.searchAccessRules`. -/
def apiSearchAccessRules (ora : Ora) (q : String) (a : LarArgs) : Except String Jv :=
  match ora (.accessRulesSearch q a) with
  | .ok r => .ok r
  | .error s => .error ("Failed to search access rules: " ++ s)

/-- Model of `NarrativeApiClient.fetchDatasetStatistics`: a non-numeric id throws
inside the same `try`, so the invalid-id `Error` is itself re-wrapped by
the `catch`; otherwise `sdk.getStatistics(datasetId)` is called.  Returns
the calls issued alongside the result. -/
def apiFetchDatasetStatistics (ora : Ora) (id : String) :
    List UpCall × Except String Jv :=
  match jsParseInt10 id with
  | none =>
      ([], .error ("Failed to fetch dataset statistics for " ++ id ++ ": " ++
        errToString ("Invalid dataset ID: " ++ id ++ ". Must be a number.")))
  | some n =>
      match ora (.getStatistics n) with
      | .ok r => ([.getStatistics n], .ok r)
      | .error s =>
          ([.getStatistics n],
            .error ("Failed to fetch dataset statistics for " ++ id ++ ": " ++ s))

/-- Model of `NarrativeApiClient.fetchDatasetSample`: same pattern, plus the local
size bounds check. -/
def apiFetchDatasetSample (ora : Ora) (id : String) (size : Int) :
    List UpCall × Except String Jv :=
  match jsParseInt10 id with
  | none =>
      ([], .error ("Failed to fetch dataset sample for " ++ id ++ ": " ++
        errToString ("Invalid dataset ID: " ++ id ++ ". Must be a number.")))
  | some n =>
      if size < 1 || 100 < size then
        ([], .error ("Failed to fetch dataset sample for " ++ id ++ ": " ++
          errToString ("Invalid sample size: " ++ toString size ++ ". Must be between 1 and 100.")))
      else
        match ora (.getDatasetSample n size) with
        | .ok r => ([.getDatasetSample n size], .ok r)
        | .error s =>
            ([.getDatasetSample n size],
              .error ("Failed to fetch dataset sample for " ++ id ++ ": " ++ s))

/-- The check `status.status !== 'completed'` (negated): true exactly when
the field is the string `"completed"`. -/
def statusCompleted (o : Option Jv) : Bool :=
  match o with
  | some (.str s) => s = "completed"
  | _ => false

/-- Model of `NarrativeSDKClient.getJobResults` (src/src/lib/sdk-client.ts, lines
123-136): fetch the job status first; only when `status.status` is the
string `"completed"` is the results call issued, otherwise it throws
`Error("Job <id> is not completed yet. Current status: <status>")`. -/
def sdkGetJobResults (ora : Ora) (jobId : String) (rt : RT) :
    List UpCall × Except JsE Jv :=
  match ora (.jobsGetStatus jobId) with
  | .error s => ([.jobsGetStatus jobId], .error (.raw s))
  | .ok st =>
      if statusCompleted (jGet st "status") then
        match ora (.jobsGetResults jobId rt) with
        | .ok r => ([.jobsGetStatus jobId, .jobsGetResults jobId rt], .ok r)
        | .error s => ([.jobsGetStatus jobId, .jobsGetResults jobId rt], .error (.raw s))
      else
        ([.jobsGetStatus jobId],
          .error (.err ("Job " ++ jobId ++ " is not completed yet. Current status: " ++
            jvFieldToString (jGet st "status"))))

/-- Model of `NarrativeApiClient.getJobResults`: wraps any failure of the SDK-level
call in `Error("Failed to get job results for <id>: " + e)`. -/
def apiGetJobResults (ora : Ora) (jobId : String) (rt : RT) :
    List UpCall × Except String Jv :=
  match sdkGetJobResults ora jobId rt with
  | (cs, .ok r) => (cs, .ok r)
  | (cs, .error e) =>
      (cs, .error ("Failed to get job results for " ++ jobId ++ ": " ++ jsShow e))

/-- Model of `NarrativeApiClient.executeNql` over
`NarrativeSDKClient.executeNql`: the SDK applies the `?? true` defaults and
calls `sdk.nql.execute`; the api client wraps failures in
`Error("Failed to execute NQL query: " + e)`. -/
def apiExecuteNql (ora : Ora) (q : String) (gs gst : Option Bool) :
    List UpCall × Except String Jv :=
  let c := UpCall.nqlExecute q (gs.getD true) (gst.getD true)
  match ora c with
  | .ok r => ([c], .ok r)
  | .error s => ([c], .error ("Failed to execute NQL query: " ++ s))

/-- The per-tool handlers of `ToolHandlers` (src/src/handlers/
prompt-handlers.ts), dispatched as in the `switch` of `setupToolCalls`
(the validated value determines the tool name one-to-one).  Every handler
wraps its body in `try/catch` and turns a failure into an `isError: true`
envelope with the handler's message prefix. -/
def dispatch (ora : Ora) : Validated → ToolResult
  | .echo m => ⟨[], .ok (.echoText ("Echo: " ++ m))⟩
  | .searchAttributes q p pp =>
      match apiFetchAttributes ora q p pp with
      | .ok r => ⟨[.attributes q p pp], .ok (.formatted "search_attributes" r)⟩
      | .error m =>
          ⟨[.attributes q p pp], .okError ("Error searching attributes: " ++ errToString m)⟩
  | .listDatasets =>
      match apiFetchDatasets ora with
      | .ok r => ⟨[.datasets], .ok (.formatted "list_datasets" r)⟩
      | .error m => ⟨[.datasets], .okError ("Error fetching datasets: " ++ errToString m)⟩
  | .listAccessRules a =>
      match apiFetchAccessRules ora a with
      | .ok r => ⟨[.accessRulesList a], .ok (.formatted "list_access_rules" r)⟩
      | .error m =>
          ⟨[.accessRulesList a], .okError ("Error fetching access rules: " ++ errToString m)⟩
  | .searchAccessRules q a =>
      match apiSearchAccessRules ora q a with
      | .ok r => ⟨[.accessRulesSearch q a], .ok (.formatted "search_access_rules" r)⟩
      | .error m =>
          ⟨[.accessRulesSearch q a], .okError ("Error searching access rules: " ++ errToString m)⟩
  | .datasetStatistics id =>
      match apiFetchDatasetStatistics ora id with
      | (cs, .ok r) => ⟨cs, .ok (.formatted "dataset_statistics" r)⟩
      | (cs, .error m) =>
          ⟨cs, .okError ("Error fetching dataset statistics for " ++ id ++ ": " ++ errToString m)⟩
  | .datasetSample id size =>
      match apiFetchDatasetSample ora id (size.getD 10) with
      | (cs, .ok r) => ⟨cs, .ok (.formatted "dataset_sample" r)⟩
      | (cs, .error m) =>
          ⟨cs, .okError ("Error fetching dataset sample for " ++ id ++ ": " ++ errToString m)⟩
  | .nqlExecute q gs gst =>
      match apiExecuteNql ora q gs gst with
      | (cs, .ok r) => ⟨cs, .ok (.formatted "nql_execute" r)⟩
      | (cs, .error m) => ⟨cs, .okError ("Error executing NQL query: " ++ errToString m)⟩
  | .nqlGetResults j rt =>
      match apiGetJobResults ora j rt with
      | (cs, .ok r) => ⟨cs, .ok (.formatted "nql_get_results" r)⟩
      | (cs, .error m) =>
          ⟨cs, .okError ("Error retrieving NQL job results: " ++ errToString m)⟩

/-- Defaulting `request.params.arguments || {}`. -/
def toolArgs (rawArgs : Jv) : Jv :=
  if jsFalsy rawArgs then Jv.obj [] else rawArgs

/-- Model of `ToolHandlers.setupToolCalls` (src/src/handlers/prompt-handlers.ts,
lines 366-413): default the arguments (`request.params.arguments || {}`),
validate, then dispatch.  A `ZodError` becomes
`McpError(InvalidParams, ...)`; any other thrown error — in particular the
plain `Error` from `validateToolInput`'s unknown-tool branch — is rethrown
unchanged, so the `McpError(MethodNotFound, ...)` default branch of the
inner `switch` is unreachable. -/
def callTool (ora : Ora) (name : String) (rawArgs : Jv) : ToolResult :=
  match validateToolInput name (toolArgs rawArgs) with
  | .error (.zod m) =>
      ⟨[], .protoErr .invalidParams ("Invalid parameters for tool " ++ name ++ ": " ++ m)⟩
  | .error (.plain m) => ⟨[], .plainErr m⟩
  | .ok v => dispatch ora v

/-! ## Shared concrete instances and discriminators for the theorems -/

/-- Identifier characters the URL model is exact on: ASCII letters,
digits, `-`, `_`, `.` (the alphabet of the server's registry keys and
resource identifiers). -/
def cleanChar (c : Char) : Bool :=
  (97 ≤ c.toNat && c.toNat ≤ 122) || (65 ≤ c.toNat && c.toNat ≤ 90) ||
    (48 ≤ c.toNat && c.toNat ≤ 57) || c = '-' || c = '_' || c = '.'

/-- Whether a read decision issues an upstream fetch. -/
def isUpstreamFetch : ReadDecision → Bool
  | .fetchDataset _ => true
  | .fetchAccessRule _ => true
  | _ => false

/-- Whether a read decision is the invalid-access-rule-id error. -/
def isInvalidIdErr : ReadDecision → Bool
  | .errInvalidAccessRuleId _ => true
  | _ => false

/-- Whether a read decision is the unsupported-scheme error. -/
def isUnsupportedSchemeErr : ReadDecision → Bool
  | .errUnsupportedScheme _ => true
  | _ => false

/-- Whether a tool outcome is a response envelope (as opposed to a thrown
error). -/
def isEnvelope : ToolOut → Bool
  | .ok _ => true
  | .okError _ => true
  | _ => false

/-- The nine declared tools of the full `ToolRegistry`. -/
def declaredTools : List String :=
  ["echo", "search_attributes", "list_datasets", "list_access_rules",
    "search_access_rules", "dataset_statistics", "dataset_sample",
    "nql_execute", "nql_get_results"]

/-- A stored entry under the key `access-rule-67`, as `addBatch` of a
prior access-rule listing would create it. -/
def cexEntry : StoredResource :=
  ⟨"access-rule-67", "Access Rule 67", "payload-of-access-rule-67", none,
    some "application/json"⟩

/-- A registry holding `cexEntry` under `access-rule-67`. -/
def cexReg : Registry := [("access-rule-67", cexEntry)]

/-- An upstream oracle on which every call fails. -/
def oraFail : Ora := fun _ => .error "network down"

/-- An upstream oracle reporting every job as `running`. -/
def oraRunning : Ora := fun c =>
  match c with
  | .jobsGetStatus j => .ok (.obj [("id", .str j), ("status", .str "running")])
  | _ => .ok .null

/-! ## Lemmas on characters, lists and the URL model -/

theorem cleanChar_cases {c : Char} (h : cleanChar c = true) :
    c.toNat = 45 ∨ c.toNat = 46 ∨ c.toNat = 95 ∨ (48 ≤ c.toNat ∧ c.toNat ≤ 57) ∨
      (65 ≤ c.toNat ∧ c.toNat ≤ 90) ∨ (97 ≤ c.toNat ∧ c.toNat ≤ 122) := by
  simp only [cleanChar, Bool.or_eq_true, Bool.and_eq_true, decide_eq_true_eq] at h
  rcases h with ((((⟨h1, h2⟩ | ⟨h1, h2⟩) | ⟨h1, h2⟩) | rfl) | rfl) | rfl
  · right; right; right; right; right; omega
  · right; right; right; right; left; omega
  · right; right; right; left; omega
  · left; decide
  · right; right; left; decide
  · right; left; decide

theorem ne_of_toNat_ne {c d : Char} (h : c.toNat ≠ d.toNat) : c ≠ d :=
  fun he => h (he ▸ rfl)

theorem cleanChar_not_c0 {c : Char} (h : cleanChar c = true) : c0OrSpace c = false := by
  have := cleanChar_cases h
  simp only [c0OrSpace, decide_eq_false_iff_not]
  omega

theorem cleanChar_notAuthorityEnd {c : Char} (h : cleanChar c = true) :
    notAuthorityEnd c = true := by
  have hc := cleanChar_cases h
  have h1 : c ≠ '/' := ne_of_toNat_ne (by simp only [show ('/').toNat = 47 from rfl]; omega)
  have h2 : c ≠ '?' := ne_of_toNat_ne (by simp only [show ('?').toNat = 63 from rfl]; omega)
  have h3 : c ≠ '#' := ne_of_toNat_ne (by simp only [show ('#').toNat = 35 from rfl]; omega)
  simp [notAuthorityEnd, h1, h2, h3]

theorem cleanChar_notPathEnd {c : Char} (h : cleanChar c = true) :
    notPathEnd c = true := by
  have hc := cleanChar_cases h
  have h2 : c ≠ '?' := ne_of_toNat_ne (by simp only [show ('?').toNat = 63 from rfl]; omega)
  have h3 : c ≠ '#' := ne_of_toNat_ne (by simp only [show ('#').toNat = 35 from rfl]; omega)
  simp [notPathEnd, h2, h3]

theorem digit_bounds {c : Char} (h : isDigit c = true) :
    48 ≤ c.toNat ∧ c.toNat ≤ 57 := by
  simpa [isDigit, Bool.and_eq_true, decide_eq_true_eq] using h

theorem not_jsWs_of_digit {c : Char} (h : isDigit c = true) : jsWs c = false := by
  have hb := digit_bounds h
  cases hjs : jsWs c
  · rfl
  · exfalso
    simp only [jsWs, Bool.or_eq_true, decide_eq_true_eq] at hjs
    rcases hjs with ((((rfl | rfl) | rfl) | rfl) | rfl) | rfl <;>
      exact absurd hb (by decide)

theorem dropWhile_eq_self {p : Char → Bool} {l : List Char}
    (h : ∀ c ∈ l, p c = false) : l.dropWhile p = l := by
  cases l with
  | nil => rfl
  | cons a t => simp [List.dropWhile_cons, h a (List.mem_cons_self a t)]

theorem urlTrim_eq_self {l : List Char} (h : ∀ c ∈ l, c0OrSpace c = false) :
    urlTrim l = l := by
  unfold urlTrim
  rw [dropWhile_eq_self h, dropWhile_eq_self
    (fun c hc => h c (List.mem_reverse.1 hc)), List.reverse_reverse]

theorem takeWhile_eq_self {p : Char → Bool} {l : List Char}
    (h : ∀ c ∈ l, p c = true) : l.takeWhile p = l := by
  induction l with
  | nil => rfl
  | cons a t ih =>
      simp [List.takeWhile_cons, h a (List.mem_cons_self a t),
        ih (fun c hc => h c (List.mem_cons_of_mem a hc))]

theorem takeWhile_append_of {p : Char → Bool} {l r : List Char}
    (hl : ∀ c ∈ l, p c = true) (hr : ∀ c, r.head? = some c → p c = false) :
    (l ++ r).takeWhile p = l := by
  induction l with
  | nil =>
      cases r with
      | nil => rfl
      | cons a t => simpa [List.takeWhile_cons] using hr a rfl
  | cons a t ih =>
      simp [List.takeWhile_cons, hl a (List.mem_cons_self a t),
        ih (fun c hc => hl c (List.mem_cons_of_mem a hc))]

theorem urlTrim_clean_append (pre id : List Char)
    (hpre : ∀ c ∈ pre, c0OrSpace c = false)
    (hid : ∀ c ∈ id, cleanChar c = true) :
    urlTrim (pre ++ id) = pre ++ id := by
  apply urlTrim_eq_self
  intro c hc
  rcases List.mem_append.1 hc with h | h
  · exact hpre c h
  · exact cleanChar_not_c0 (hid c h)

theorem parseAfterScheme_slash3 (proto : String) (hp : specialScheme proto = false)
    (id : List Char) (hid : ∀ c ∈ id, cleanChar c = true) :
    parseAfterScheme proto ('/' :: '/' :: '/' :: id) =
      some ⟨proto, "", String.mk ('/' :: id)⟩ := by
  have hq : id.takeWhile notPathEnd = id :=
    takeWhile_eq_self (fun c hc => cleanChar_notPathEnd (hid c hc))
  simp [parseAfterScheme, hp, List.takeWhile_cons, List.dropWhile_cons,
    notAuthorityEnd, notPathEnd, hq]

/-- Behaviour of `parseUrl` on a `scheme:///identifier` URI with clean identifier
characters: empty host, path `/identifier`.  The `splitScheme` hypothesis
is discharged by `rfl` at each concrete scheme. -/
theorem parseUrl_slash3 {pre proto : String} (id : List Char)
    (hid : ∀ c ∈ id, cleanChar c = true)
    (hpre : ∀ c ∈ pre.toList, c0OrSpace c = false)
    (hsplit : splitScheme (pre.toList ++ id) = some (proto, '/' :: '/' :: '/' :: id))
    (hsp : specialScheme proto = false) :
    parseUrl (String.mk (pre.toList ++ id)) = some ⟨proto, "", String.mk ('/' :: id)⟩ := by
  have htrim := urlTrim_clean_append pre.toList id hpre hid
  unfold parseUrl
  rw [show (String.mk (pre.toList ++ id)).toList = pre.toList ++ id from rfl, htrim, hsplit]
  exact parseAfterScheme_slash3 _ hsp id hid

/-! ## Registry lemmas -/

theorem regGet_append_missing (reg : Registry) (k : String) (e : StoredResource)
    (h : reg.any (fun p => p.1 = k) = false) :
    regGet (reg ++ [(k, e)]) k = some e := by
  induction reg with
  | nil => simp [regGet, List.find?]
  | cons a t ih =>
      simp only [List.any_cons, Bool.or_eq_false_iff] at h
      have ha : (decide (a.1 = k)) = false := h.1
      simp only [regGet, List.cons_append, List.find?_cons, ha]
      exact ih h.2

theorem regGet_map_overwrite (reg : Registry) (k : String) (e : StoredResource)
    (h : reg.any (fun p => p.1 = k) = true) :
    regGet (reg.map (fun p => if p.1 = k then (k, e) else p)) k = some e := by
  induction reg with
  | nil => simp at h
  | cons a t ih =>
      by_cases ha : a.1 = k
      · simp [regGet, List.map_cons, ha, List.find?_cons]
      · have h' : t.any (fun p => p.1 = k) = true := by
          simp only [List.any_cons, Bool.or_eq_true] at h
          rcases h with hh | hh
          · exact absurd (of_decide_eq_true hh) ha
          · exact hh
        simp only [List.map_cons, if_neg ha, regGet, List.find?_cons,
          decide_eq_false ha]
        exact ih h'

/-- Insertion `put` always succeeds and a `get` on the same address immediately
afterwards returns exactly the entry just inserted. -/
theorem regGet_set_self (reg : Registry) (k : String) (e : StoredResource) :
    regGet (regSet reg k e) k = some e := by
  unfold regSet
  by_cases h : reg.any (fun p => p.1 = k) = true
  · rw [if_pos h]; exact regGet_map_overwrite reg k e h
  · have h' : reg.any (fun p => p.1 = k) = false := by
      cases hx : reg.any (fun p => p.1 = k)
      · rfl
      · exact absurd hx h
    rw [if_neg (by simp [h'])]
    exact regGet_append_missing reg k e h'

/-! ## The access-rule identifier step -/

theorem accessRuleIdStep_digitsHead (ds rest : List Char) (hne : ds ≠ [])
    (hds : ∀ c ∈ ds, isDigit c = true)
    (hrest : ∀ c, rest.head? = some c → isDigit c = false) :
    accessRuleIdStep (String.mk (ds ++ rest)) = .fetchAccessRule (decVal ds) := by
  obtain ⟨d, ds', rfl⟩ : ∃ d ds', ds = d :: ds' := by
    cases ds with
    | nil => exact absurd rfl hne
    | cons d t => exact ⟨d, t, rfl⟩
  have hd : isDigit d = true := hds d (List.mem_cons_self d ds')
  have hb := digit_bounds hd
  have hw : jsWs d = false := not_jsWs_of_digit hd
  have hm : d ≠ '-' := ne_of_toNat_ne (by simp only [show ('-').toNat = 45 from rfl]; omega)
  have hp : d ≠ '+' := ne_of_toNat_ne (by simp only [show ('+').toNat = 43 from rfl]; omega)
  have htw : ((d :: ds') ++ rest).takeWhile isDigit = d :: ds' :=
    takeWhile_append_of hds hrest
  unfold accessRuleIdStep jsParseInt10 parseIntCore
  rw [show (String.mk ((d :: ds') ++ rest)).toList = d :: (ds' ++ rest) from rfl]
  rw [show (d :: (ds' ++ rest)).dropWhile jsWs = d :: (ds' ++ rest) by
    simp [List.dropWhile_cons, hw]]
  simp only [if_neg hm, if_neg hp, digitsHeadVal]
  rw [show d :: (ds' ++ rest) = (d :: ds') ++ rest from rfl, htw]
  simp

theorem accessRuleIdStep_leading_digit (c : Char) (t : List Char)
    (hc : isDigit c = true) :
    isInvalidIdErr (accessRuleIdStep (String.mk (c :: t))) = false := by
  have hw : jsWs c = false := not_jsWs_of_digit hc
  have hb := digit_bounds hc
  have hm : c ≠ '-' := ne_of_toNat_ne (by simp only [show ('-').toNat = 45 from rfl]; omega)
  have hp : c ≠ '+' := ne_of_toNat_ne (by simp only [show ('+').toNat = 43 from rfl]; omega)
  unfold accessRuleIdStep jsParseInt10 parseIntCore
  rw [show (String.mk (c :: t)).toList = c :: t from rfl]
  rw [show (c :: t).dropWhile jsWs = c :: t by simp [List.dropWhile_cons, hw]]
  simp only [if_neg hm, if_neg hp, digitsHeadVal, List.takeWhile_cons, hc]
  simp [isInvalidIdErr]

/-- Any name outside the nine declared tools is stopped inside
`validateToolInput` by a plain `Error`, before the dispatch `switch` (and
its `MethodNotFound` branch) can run. -/
theorem callTool_unknown_name (ora : Ora) (name : String) (args : Jv)
    (h : ¬ name ∈ declaredTools) :
    callTool ora name args = ⟨[], .plainErr ("Unknown tool: " ++ name)⟩ := by
  simp only [declaredTools, List.mem_cons, List.not_mem_nil, or_false] at h
  push_neg at h
  obtain ⟨h1, h2, h3, h4, h5, h6, h7, h8, h9⟩ := h
  have hval : validateToolInput name (toolArgs args) =
      .error (.plain ("Unknown tool: " ++ name)) := by
    unfold validateToolInput
    split
    · exact absurd rfl h1
    · exact absurd rfl h2
    · exact absurd rfl h3
    · exact absurd rfl h4
    · exact absurd rfl h5
    · exact absurd rfl h6
    · exact absurd rfl h7
    · exact absurd rfl h8
    · exact absurd rfl h9
    · rfl
  unfold callTool
  rw [hval]

/-! ## The claims -/

/-- C1: the claim says every `access-rule://N` read performs a live
upstream fetch of rule `N` and never a registry lookup.  Evaluating the
handler at the failing input `access-rule://67` (with an entry stored
under `access-rule-67`): the WHATWG URL parser puts `67` in the authority,
`url.pathname` is empty, `parseInt("")` is `NaN`, and the handler throws
`McpError(InvalidRequest, "Invalid access rule ID: ")` — no upstream fetch
and no registry lookup.  The intended fetch-by-id path (which indeed never
consults the registry) is reached only by path-carrying forms such as
`access-rule:67` or `access-rule:///67`. -/
theorem c1_access_rule_refetch_bug :
    regGet cexReg "access-rule-67" = some cexEntry ∧
    readResource "access-rule://67" cexReg = .errInvalidAccessRuleId "" ∧
    isUpstreamFetch (readResource "access-rule://67" cexReg) = false ∧
    readResource "access-rule:67" cexReg = .fetchAccessRule 67 ∧
    readResource "access-rule:///67" cexReg = .fetchAccessRule 67 :=
  ⟨rfl, rfl, rfl, rfl, rfl⟩

/-- C2 (amended): for resource URIs whose identifier lies in the URL path
— the `resource:///K` form the handler's own comment documents ("legacy
resource pattern: resource:///") — a read with identifier `K` returns
exactly the stored entry's payload string, byte-for-byte and
untransformed (the `text` of the served contents is the entry's
`content`), and a read whose identifier is not a registry key fails with
the typed `Resource <id> not found` error.  (The double-slash form
`resource://K` puts `K` in the URL authority and fails; see the
counterexample.)  The registry lookup itself is modelled from the spec
(`resource-manager.ts` is absent from the snapshot). -/
theorem c2_resource_read_exact (reg : Registry) (K : String)
    (hK : K.toList.all cleanChar = true) :
    (∀ e : StoredResource, regGet reg K = some e →
        readResource ("resource:///" ++ K) reg =
          .served ⟨"resource:///" ++ K, e.mimeType.getD "text/plain", e.content⟩) ∧
      (regGet reg K = none →
        readResource ("resource:///" ++ K) reg = .errNotFound K) := by
  obtain ⟨l⟩ := K
  have hid : ∀ c ∈ l, cleanChar c = true := fun c hc => List.all_eq_true.1 hK c hc
  have hparse := @parseUrl_slash3 "resource:///" "resource:"
    l hid (by decide) rfl (by decide)
  have hread : ∀ out, readResource ("resource:///" ++ String.mk l) reg = out ↔
      (match getResourceContents reg (String.mk l)
          (String.mk ("resource:///".toList ++ l)) with
        | some c => ReadDecision.served c
        | none => ReadDecision.errNotFound (String.mk l)) = out := by
    intro out
    unfold readResource
    rw [show ("resource:///" ++ String.mk l) = String.mk ("resource:///".toList ++ l)
      from rfl, hparse]
    simp only []
    rw [if_neg (by decide), if_neg (by decide), if_pos trivial]
    rw [show stripLeadSlash (String.mk ('/' :: l)) = String.mk l from rfl]
  constructor
  · intro e he
    rw [hread]
    unfold getResourceContents
    rw [he]
    rfl
  · intro he
    rw [hread]
    unfold getResourceContents
    rw [he]

theorem c2_resource_read_exact_witness :
    readResource "resource:///access-rule-67" cexReg =
      .served ⟨"resource:///access-rule-67", "application/json",
        "payload-of-access-rule-67"⟩ ∧
    readResource "resource:///missing" cexReg = .errNotFound "missing" :=
  ⟨(c2_resource_read_exact cexReg "access-rule-67" (by decide)).1 cexEntry rfl,
    (c2_resource_read_exact cexReg "missing" (by decide)).2 rfl⟩

/-- C2 counterexample: the claim as stated fails at the spec's own
scenario `resource://access-rule-67` — WHATWG URL parsing places
`access-rule-67` in the authority, the extracted identifier is the empty
string, and the read fails with `McpError(InvalidRequest,
"Resource  not found")` even though the registry holds the entry under
`access-rule-67`; the stored payload is not served. -/
theorem c2_resource_read_counterexample :
    regGet cexReg "access-rule-67" = some cexEntry ∧
    parseUrl "resource://access-rule-67" = some ⟨"resource:", "access-rule-67", ""⟩ ∧
    readResource "resource://access-rule-67" cexReg = .errNotFound "" :=
  ⟨rfl, rfl, rfl⟩

/-- C3 (amended): for every address that parses as a URL whose scheme is
not one of `dataset:`, `access-rule:`, `resource:`, resolution fails with
the `Unsupported URI scheme` error, for every registry state — no default
scheme and no partial-prefix matching.  (An address with no scheme at all
instead fails earlier, when `new URL` throws; see the counterexample.) -/
theorem c3_unsupported_scheme_amended (addr : String) (reg : Registry) (u : JsUrl)
    (hp : parseUrl addr = some u)
    (h1 : u.protocol ≠ "dataset:") (h2 : u.protocol ≠ "access-rule:")
    (h3 : u.protocol ≠ "resource:") :
    readResource addr reg = .errUnsupportedScheme u.protocol := by
  unfold readResource
  rw [hp]
  simp [h1, h2, h3]

theorem c3_unsupported_scheme_amended_witness :
    parseUrl "datasets://99" = some ⟨"datasets:", "99", ""⟩ ∧
    readResource "datasets://99" cexReg = .errUnsupportedScheme "datasets:" :=
  ⟨rfl, c3_unsupported_scheme_amended "datasets://99" cexReg ⟨"datasets:", "99", ""⟩ rfl
    (by decide) (by decide) (by decide)⟩

/-- C3 counterexample: the claim as stated fails at the scheme-less
address `access-rule-67` — even with a same-named registry entry present,
`new URL` throws `Invalid URL` before any scheme dispatch, so resolution
does not fail with the unsupported-scheme error. -/
theorem c3_unsupported_scheme_counterexample :
    regGet cexReg "access-rule-67" = some cexEntry ∧
    parseUrl "access-rule-67" = none ∧
    readResource "access-rule-67" cexReg = .errInvalidUrl ∧
    isUnsupportedSchemeErr (readResource "access-rule-67" cexReg) = false :=
  ⟨rfl, rfl, rfl, rfl⟩

/-- C4 (amended): only the access-rule scheme validates its identifier
locally: when the identifier extracted from the URL path fails
`parseInt(·, 10)`, resolution ends in the `Invalid access rule ID` error,
issuing no upstream call.  Dataset identifiers are never validated
locally: a dataset read always issues the upstream fetch with whatever
string was extracted from the path. -/
theorem c4_identifier_validation_amended :
    (∀ (reg : Registry) (ident : String), ident.toList.all cleanChar = true →
        jsParseInt10 ident = none →
        readResource ("access-rule:///" ++ ident) reg = .errInvalidAccessRuleId ident) ∧
    (∀ (reg : Registry) (ident : String), ident.toList.all cleanChar = true →
        readResource ("dataset:///" ++ ident) reg = .fetchDataset ident) := by
  constructor
  · intro reg ident hclean hnan
    obtain ⟨l⟩ := ident
    have hid : ∀ c ∈ l, cleanChar c = true := by
      intro c hc; exact List.all_eq_true.1 hclean c hc
    have hparse := @parseUrl_slash3 "access-rule:///" "access-rule:"
      l hid (by decide) rfl (by decide)
    unfold readResource
    rw [show ("access-rule:///" ++ String.mk l) = String.mk ("access-rule:///".toList ++ l)
      from rfl, hparse]
    simp only []
    rw [if_pos trivial]
    show accessRuleIdStep (stripLeadSlash (String.mk ('/' :: l))) = _
    rw [show stripLeadSlash (String.mk ('/' :: l)) = String.mk l from rfl]
    unfold accessRuleIdStep
    rw [hnan]
  · intro reg ident hclean
    obtain ⟨l⟩ := ident
    have hid : ∀ c ∈ l, cleanChar c = true := by
      intro c hc; exact List.all_eq_true.1 hclean c hc
    have hparse := @parseUrl_slash3 "dataset:///" "dataset:"
      l hid (by decide) rfl (by decide)
    unfold readResource
    rw [show ("dataset:///" ++ String.mk l) = String.mk ("dataset:///".toList ++ l)
      from rfl, hparse]
    simp only []
    rw [if_pos trivial]
    exact congrArg ReadDecision.fetchDataset rfl

theorem c4_identifier_validation_amended_witness :
    readResource "access-rule:///abc" cexReg = .errInvalidAccessRuleId "abc" ∧
    readResource "dataset:///ds-1" cexReg = .fetchDataset "ds-1" :=
  ⟨c4_identifier_validation_amended.1 cexReg "abc" (by decide) rfl,
    c4_identifier_validation_amended.2 cexReg "ds-1" (by decide)⟩

/-- C4 counterexample: the claim as stated fails at `dataset://abc` — the
handler issues the upstream dataset fetch (with the id extracted from the
URL path, here the empty string, `abc` being parsed as the authority)
instead of failing with an invalid-identifier error before any network
call. -/
theorem c4_identifier_validation_counterexample :
    readResource "dataset://abc" [] = .fetchDataset "" ∧
    isUpstreamFetch (readResource "dataset://abc" []) = true ∧
    isInvalidIdErr (readResource "dataset://abc" []) = false :=
  ⟨rfl, rfl, rfl⟩

/-- C5: registry insertion is total (no error condition), and after two
insertions under the same address a `get` on that address returns exactly
the second entry — last-write-wins, never a merge.  The registry
operations are modelled from the spec (`resource-manager.ts` is absent
from the snapshot). -/
theorem c5_registry_last_write_wins :
    (∀ (reg : Registry) (k : String) (e1 e2 : StoredResource),
        regGet (regSet (regSet reg k e1) k e2) k = some e2) ∧
    (∀ (reg : Registry) (k : String) (e : StoredResource),
        regGet (regSet reg k e) k = some e) :=
  ⟨fun reg k _ e2 => regGet_set_self (regSet reg k _) k e2, regGet_set_self⟩

/-- C6: when the reported status of a job is anything other than the
string `completed`, `getJobResults` throws
`Error("Job <jobId> is not completed yet. Current status: <status>")` —
a message referencing both the job id and the current status — after the
status call only: the results fetch is never attempted (the call trace is
exactly `[jobsGetStatus jobId]`). -/
theorem c6_job_results_requires_completed (ora : Ora) (jobId : String) (rt : RT)
    (st : Jv) (hst : ora (.jobsGetStatus jobId) = .ok st)
    (hnc : statusCompleted (jGet st "status") = false) :
    sdkGetJobResults ora jobId rt =
      ([.jobsGetStatus jobId],
        .error (.err ("Job " ++ jobId ++ " is not completed yet. Current status: " ++
          jvFieldToString (jGet st "status")))) := by
  unfold sdkGetJobResults
  rw [hst]
  show (if statusCompleted (jGet st "status") = true then _ else _) = _
  rw [hnc]
  simp

theorem c6_job_results_requires_completed_witness :
    sdkGetJobResults oraRunning "job_123" .sample =
      ([.jobsGetStatus "job_123"],
        .error (.err "Job job_123 is not completed yet. Current status: running")) :=
  c6_job_results_requires_completed oraRunning "job_123" .sample
    (.obj [("id", .str "job_123"), ("status", .str "running")]) rfl rfl

/-- C7: when a tool's arguments fail its declared zod validation, the
invocation is rejected with `McpError(InvalidParams, ...)` and the list of
upstream calls issued is empty — validation happens in full before any
handler (and hence any upstream call) runs, so a partial validation
failure never produces a partial upstream call. -/
theorem c7_validation_before_upstream (ora : Ora) (name : String) (args : Jv)
    (m : String)
    (h : validateToolInput name (toolArgs args) = .error (.zod m)) :
    callTool ora name args =
      ⟨[], .protoErr .invalidParams ("Invalid parameters for tool " ++ name ++ ": " ++ m)⟩ := by
  unfold callTool
  rw [h]

theorem c7_validation_before_upstream_witness :
    callTool oraFail "search_attributes"
        (.obj [("query", .str "x"), ("page", .num 0 true)]) =
      ⟨[], .protoErr .invalidParams
        "Invalid parameters for tool search_attributes: Number must be greater than 0"⟩ :=
  c7_validation_before_upstream oraFail "search_attributes"
    (.obj [("query", .str "x"), ("page", .num 0 true)])
    "Number must be greater than 0" rfl

/-- C8: every failure surfaces in exactly one of two forms and none is
swallowed — invalid arguments become the typed `InvalidParams` protocol
error (first conjunct), while once validation has succeeded the handler
always returns a response envelope, never a thrown error (second
conjunct); an upstream failure yields the envelope with `isError: true`
and a message embedding the upstream error, as the concrete
`search_attributes` instance shows (third conjunct). -/
theorem c8_failure_surfacing :
    (∀ (ora : Ora) (name : String) (args : Jv) (m : String),
        validateToolInput name (toolArgs args) = .error (.zod m) →
        callTool ora name args =
          ⟨[], .protoErr .invalidParams
            ("Invalid parameters for tool " ++ name ++ ": " ++ m)⟩) ∧
    (∀ (ora : Ora) (name : String) (args : Jv) (v : Validated),
        validateToolInput name (toolArgs args) = .ok v →
        isEnvelope (callTool ora name args).out = true) ∧
    callTool oraFail "search_attributes" (.obj [("query", .str "demo")]) =
      ⟨[.attributes "demo" 1 10],
        .okError "Error searching attributes: Error: Failed to fetch attributes: network down"⟩ := by
  refine ⟨?_, ?_, rfl⟩
  · intro ora name args m h
    unfold callTool
    rw [h]
  · intro ora name args v h
    unfold callTool
    rw [h]
    show isEnvelope (dispatch ora v).out = true
    cases v with
    | echo m => rfl
    | searchAttributes q p pp =>
        simp only [dispatch]
        cases apiFetchAttributes ora q p pp <;> rfl
    | listDatasets =>
        simp only [dispatch]
        cases apiFetchDatasets ora <;> rfl
    | listAccessRules a =>
        simp only [dispatch]
        cases apiFetchAccessRules ora a <;> rfl
    | searchAccessRules q a =>
        simp only [dispatch]
        cases apiSearchAccessRules ora q a <;> rfl
    | datasetStatistics id =>
        simp only [dispatch]
        rcases hA : apiFetchDatasetStatistics ora id with ⟨cs, r⟩
        cases r <;> rfl
    | datasetSample id size =>
        simp only [dispatch]
        rcases hA : apiFetchDatasetSample ora id (size.getD 10) with ⟨cs, r⟩
        cases r <;> rfl
    | nqlExecute q gs gst =>
        simp only [dispatch]
        rcases hA : apiExecuteNql ora q gs gst with ⟨cs, r⟩
        cases r <;> rfl
    | nqlGetResults j rt =>
        simp only [dispatch]
        rcases hA : apiGetJobResults ora j rt with ⟨cs, r⟩
        cases r <;> rfl

theorem c8_failure_surfacing_witness :
    callTool oraFail "echo" (.obj [("message", .str "")]) =
      ⟨[], .protoErr .invalidParams "Invalid parameters for tool echo: String too short"⟩ ∧
    isEnvelope (callTool oraFail "echo" (.obj [("message", .str "hi")])).out = true :=
  ⟨c8_failure_surfacing.1 oraFail "echo" (.obj [("message", .str "")])
      "String too short" rfl,
    c8_failure_surfacing.2.1 oraFail "echo" (.obj [("message", .str "hi")])
      (.echo "hi") rfl⟩

/-- C9: the claim says an unknown operation name fails with the typed
`MethodNotFound` protocol error.  Evaluating the code at the failing
input: `validateToolInput` throws the plain
`Error("Unknown tool: nonexistent_tool")` before the dispatch `switch`
runs, so the invocation surfaces as a generic (internal) error, and the
`McpError(MethodNotFound, ...)` default branch is unreachable; no
upstream call is made. -/
theorem c9_unknown_tool_plain_error :
    ∀ (ora : Ora) (args : Jv),
      callTool ora "nonexistent_tool" args =
        ⟨[], .plainErr "Unknown tool: nonexistent_tool"⟩ :=
  fun _ _ => rfl

/-- C10: the access-rule identifier check accepts any identifier starting
with decimal digits and proceeds with the numeric prefix as the id
(first conjunct: `parseInt` semantics on `digits ++ non-digit rest`); an
identifier with a leading digit is never rejected as invalid (second
conjunct); concretely, `67abc` in the URL path resolves to a fetch of
access rule 67 (both with an opaque path and with an explicit `///`
path). -/
theorem c10_digit_head_identifier :
    (∀ (ds rest : List Char), ds ≠ [] → (∀ c ∈ ds, isDigit c = true) →
        (∀ c, rest.head? = some c → isDigit c = false) →
        accessRuleIdStep (String.mk (ds ++ rest)) = .fetchAccessRule (decVal ds)) ∧
    (∀ (c : Char) (t : List Char), isDigit c = true →
        isInvalidIdErr (accessRuleIdStep (String.mk (c :: t))) = false) ∧
    readResource "access-rule:///67abc" [] = .fetchAccessRule 67 ∧
    readResource "access-rule:67abc" [] = .fetchAccessRule 67 :=
  ⟨accessRuleIdStep_digitsHead, accessRuleIdStep_leading_digit, rfl, rfl⟩

theorem c10_digit_head_identifier_witness :
    accessRuleIdStep "67abc" = .fetchAccessRule 67 ∧
    isInvalidIdErr (accessRuleIdStep "9x") = false :=
  ⟨c10_digit_head_identifier.1 ['6', '7'] ['a', 'b', 'c'] (by decide) (by decide)
      (by
        intro c hc
        rw [show (['a', 'b', 'c'] : List Char).head? = some 'a' from rfl] at hc
        injection hc with h
        subst h
        decide),
    c10_digit_head_identifier.2.1 '9' ['x'] (by decide)⟩

end DataCollabMcp
